import Mathlib

/-!
Verification development for the shipping-label PDF pipeline
(`tools/FlipkartCropper`, `tools/MeshooCropper`, `tools/JioMartCropper`).

The Python sources are shallowly embedded: page texts are plain strings,
the per-page field extractors become total Lean functions over lists of
characters, exceptions become `Option`/sum results, the pandas
`sort_values` call becomes a stable insertion sort over the composite
configuration-driven key, and the PyMuPDF page geometry becomes rational
rectangle arithmetic.  All definitions are computable so that concrete
page texts can be evaluated with `decide`.
-/

set_option maxRecDepth 10000

namespace PdfTools

/-! Character-list string helpers.

Python's string operations are re-implemented over `List Char` with
structural recursion so that the kernel can evaluate them.  They model
exactly the operations the sources use: `re.sub` with the control-byte
class, `str.split("\n")`, `in` (substring), `str.strip`, `str.lower`,
`str.upper`, `str.isdigit`, `int(...)`, `str.replace` and
`str.endswith`. -/

/-- A character survives `re.sub(r"[\x00-\x08\x0b\x0c\x0e-\x1f\x7f-\xff]", "", _)`
iff it is not in the removed ranges. -/
def cleanKeep (c : Char) : Bool :=
  !(c.toNat ≤ 8 || c.toNat == 11 || c.toNat == 12
    || (14 ≤ c.toNat && c.toNat ≤ 31) || (127 ≤ c.toNat && c.toNat ≤ 255))

/-- The `CLEAN_PATTERN` substitution used by every extractor. -/
def cleanCL (cs : List Char) : List Char := cs.filter cleanKeep

/-- Python `s.split("\n")`: keeps empty segments, `"".split("\n") = [""]`. -/
def splitLinesCL : List Char → List (List Char)
  | [] => [[]]
  | c :: cs =>
    if c = '\n' then [] :: splitLinesCL cs
    else
      match splitLinesCL cs with
      | [] => [[c]]
      | l :: ls => (c :: l) :: ls

def lowerCL (cs : List Char) : List Char := cs.map Char.toLower

def upperCL (cs : List Char) : List Char := cs.map Char.toUpper

/-- Python `str.strip()` (default whitespace). -/
def trimCL (cs : List Char) : List Char :=
  ((cs.dropWhile Char.isWhitespace).reverse.dropWhile Char.isWhitespace).reverse

/-- `needle` occurs at the start of `hay`. -/
def isPrefCL : List Char → List Char → Bool
  | [], _ => true
  | _ :: _, [] => false
  | a :: as, b :: bs => a == b && isPrefCL as bs

/-- Python `needle in hay` (substring test). -/
def containsSub (pat : List Char) : List Char → Bool
  | [] => isPrefCL pat []
  | c :: cs => isPrefCL pat (c :: cs) || containsSub pat cs

/-- Python `s.endswith(pat)`. -/
def endsCL (pat cs : List Char) : Bool := isPrefCL pat.reverse cs.reverse

/-- Python `str.isdigit()` (restricted to ASCII digits, which is all the
sources ever feed it). -/
def isDigitsCL (cs : List Char) : Bool := !cs.isEmpty && cs.all Char.isDigit

def natOfDigits (cs : List Char) : ℕ := cs.foldl (fun a c => 10 * a + (c.toNat - 48)) 0

/-- Python `int(s)` on a decimal string: surrounding whitespace, one
optional sign, then at least one digit; anything else raises
(`none`). -/
def pyInt (cs : List Char) : Option Int :=
  match trimCL cs with
  | [] => none
  | '+' :: ds => if isDigitsCL ds then some (natOfDigits ds : Int) else none
  | '-' :: ds => if isDigitsCL ds then some (-(natOfDigits ds : Int)) else none
  | ds => if isDigitsCL ds then some (natOfDigits ds : Int) else none

/-- One step bound for `replaceAll`: fuel-indexed so the recursion is
structural.  `replaceAllAux pat rep cs n` rewrites at most `n` positions. -/
def replaceAllAux (pat rep : List Char) : List Char → ℕ → List Char
  | cs, 0 => cs
  | [], _ => []
  | c :: cs, Nat.succ n =>
    if !pat.isEmpty && isPrefCL pat (c :: cs) then
      rep ++ replaceAllAux pat rep ((c :: cs).drop pat.length) n
    else
      c :: replaceAllAux pat rep cs n

/-- Python `s.replace(pat, rep)` (all occurrences, left to right). -/
def replaceAll (pat rep cs : List Char) : List Char := replaceAllAux pat rep cs cs.length

/-- Python `s.split(sep, 1)` returning the two pieces, or `none` when the
separator is absent (so `[s]` has no index 1). -/
def splitOnceCL (sep : Char) : List Char → Option (List Char × List Char)
  | [] => none
  | c :: cs =>
    if c = sep then some ([], cs)
    else
      match splitOnceCL sep cs with
      | none => none
      | some (a, b) => some (c :: a, b)

/-- Concatenation of `f` over `l`: `catMap f l` is the concatenation of `f` over `l` (the repeated
`result.insert_pdf`/`df.append` pattern). -/
def catMap (f : α → List β) : List α → List β
  | [] => []
  | a :: as => f a ++ catMap f as

/-! The record table and the configuration-driven sort.

`PageRecord` is one row of the pandas dataframe built by `extract_data`.
Flipkart's variant has no `size`/`color` columns; they default to `""`. -/

structure PageRecord where
  page : ℕ
  sku : String
  qty : Int
  multi : Bool
  courier : String
  soldBy : String
  size : String := ""
  color : String := ""
  deriving DecidableEq, Repr

/-- The three sort toggles of `config.json` (`sku_sort`, `courier_sort`,
`soldBy_sort`). -/
structure SortConfig where
  skuSort : Bool
  courierSort : Bool
  soldBySort : Bool
  deriving DecidableEq, Repr

/-- The column cleanup applied by `process_folder` before sorting:
`df[col].str.strip()` for `sku`, `courier`, `soldBy`. -/
def cleanRecord (r : PageRecord) : PageRecord :=
  { r with
    sku := ⟨trimCL r.sku.data⟩
    courier := ⟨trimCL r.courier.data⟩
    soldBy := ⟨trimCL r.soldBy.data⟩ }

/-- Python string `<` (lexicographic on code points). -/
def strLtCL : List Char → List Char → Bool
  | [], [] => false
  | [], _ :: _ => true
  | _ :: _, [] => false
  | a :: as, b :: bs =>
    if a.toNat < b.toNat then true
    else if b.toNat < a.toNat then false
    else strLtCL as bs

/-- The `sku_lower` helper column (`df["sku"].str.lower()`), computed on
the already-stripped record. -/
def skuLower (r : PageRecord) : List Char := lowerCL r.sku.data

/-- The composite `sort_values` key of `process_folder`:
`by=["multi"(asc)] ++ ["sku_lower"(desc) if sku_sort] ++ ["courier"(asc) if courier_sort]
++ ["soldBy"(asc) if soldBy_sort]`.  `keyLE a b` decides whether row `a`
may precede row `b` under that lexicographic multi-column comparison
(`true` on full ties, making the insertion sort below stable in row
order, as numpy's `lexsort` is). -/
def keyLE (cfg : SortConfig) (a b : PageRecord) : Bool :=
  if a.multi ≠ b.multi then (!a.multi && b.multi)
  else if cfg.skuSort && (skuLower a ≠ skuLower b) then strLtCL (skuLower b) (skuLower a)
  else if cfg.courierSort && (a.courier.data ≠ b.courier.data) then
    strLtCL a.courier.data b.courier.data
  else if cfg.soldBySort && (a.soldBy.data ≠ b.soldBy.data) then
    strLtCL a.soldBy.data b.soldBy.data
  else true

/-- Embedding of `df.sort_values(by=sort_list, ascending=ascending_list)`
as a stable sort on the row list. -/
def sortTable (cfg : SortConfig) (rows : List PageRecord) : List PageRecord :=
  rows.insertionSort (fun a b => keyLE cfg a b = true)

/-- The Page Reorderer: `for page in df.page.values:
writer_output.addpage(reader_input.pages[page])`. -/
def reorderDoc (doc : List α) (order : List ℕ) : List α :=
  order.filterMap fun i => doc[i]?

/-- The courier normalization shared by `MeshooCropper/utils.courier_extract`
and `JioMartCropper/utils.courier_extract`: the extracted token is
stripped, lower-cased, and the placeholder values `"c"`, `"lsh-r0"`,
`"lhs-r0"` and `""` are replaced by the canonical carrier `"valmo"`. -/
def courierNormalize (token : String) : String :=
  let c := lowerCL (trimCL token.data)
  if c = "c".data ∨ c = "lsh-r0".data ∨ c = "lhs-r0".data ∨ c = [] then "valmo"
  else ⟨c⟩

namespace Meshoo

/-! Embedding of `tools/MeshooCropper/utils.py`. -/

/-- Computation `page.split("\n")` after the `CLEAN_PATTERN` substitution,
as done at the top of every Meshoo extractor. -/
def pageLines (page : String) : List (List Char) := splitLinesCL (cleanCL page.data)

/-- The nonempty-line filtering `page = [x for x in page if len(x) != 0]`
used by `courier_extract`, `soldBy_extract`, `size_extract`,
`color_extract`. -/
def neLines (page : String) : List (List Char) := (pageLines page).filter (· ≠ [])

/-- Result of `quantity_extract`: the `try` branch returns the pair
`(int(...), multiple_qty)`, while the bare `except` branch returns the
single integer `0` (not a pair). -/
inductive QtyRes where
  | tup (q : Int) (m : Bool)
  | bare (n : Int)
  deriving DecidableEq, Repr

def QtyRes.isTup : QtyRes → Bool
  | .tup _ _ => true
  | .bare _ => false

/-- Embedding of `quantity_extract`: find the first line containing `"Qty"`, read
`multiple_qty = page[i+2] != ""` (IndexError falls into the `except`),
then `int(page[i+1])` (ValueError falls into the `except`); the
`except` branch returns the bare integer `0`. -/
def quantity_extract (page : String) : QtyRes :=
  let lines := pageLines page
  match lines.findIdx? (fun l => containsSub "Qty".data l) with
  | none => .bare 0
  | some i =>
    match lines[i + 2]? with
    | none => .bare 0
    | some l2 =>
      match pyInt ((lines[i + 1]?).getD []) with
      | none => .bare 0
      | some q => .tup q (decide (l2 ≠ []) || decide (q ≠ 1))

/-- Result of `sku_extract`: the `try` branch returns a stripped string,
the `except` branch returns the integer `0`. -/
inductive SkuRes where
  | str (s : String)
  | zero
  deriving DecidableEq, Repr

/-- Embedding of `sku_extract`: first line containing `"SKU"`, then the stripped next
line; IndexError (no such line, or no next line) returns `0`. -/
def sku_extract (page : String) : SkuRes :=
  let lines := pageLines page
  match lines.findIdx? (fun l => containsSub "SKU".data l) with
  | none => .zero
  | some i =>
    match lines[i + 1]? with
    | none => .zero
    | some l => .str ⟨trimCL l⟩

/-- How the mixed-type `sku` dataframe column is rendered by the later
`df["sku"].astype(str)` in `main.process_folder`: the `except` value
`0` becomes the string `"0"`. -/
def SkuRes.toColumn : SkuRes → String
  | .str s => s
  | .zero => "0"

/-- Embedding of `courier_extract`: on the nonempty lines, `"Destination Code" not in
page` is a *list membership* test (a line equal to that literal), then the
line after (or before) the first `"Pickup"` line has `"Pickup"` removed,
is stripped, lower-cased and normalized.  Any IndexError yields `""`.
Note Python's `page[courier_idx - 1]` indexes from the end when
`courier_idx = 0`. -/
def courier_extract (page : String) : String :=
  let lines := neLines page
  match lines.findIdx? (fun l => containsSub "Pickup".data l) with
  | none => ""
  | some i =>
    let pick : Option (List Char) :=
      if lines.all (fun l => l ≠ "Destination Code".data) then lines[i + 1]?
      else if i = 0 then lines.getLast? else lines[i - 1]?
    match pick with
    | none => ""
    | some l => courierNormalize ⟨trimCL (replaceAll "Pickup".data [] l)⟩

/-- Embedding of `soldBy_extract`: the line after the first line containing
`"If undelivered, return to:"` among the nonempty lines (unstripped);
`""` on IndexError. -/
def soldBy_extract (page : String) : String :=
  let lines := neLines page
  match lines.findIdx? (fun l => containsSub "If undelivered, return to:".data l) with
  | none => ""
  | some i => match lines[i + 1]? with | none => "" | some l => ⟨l⟩

/-- Embedding of `size_extract`: the line after the first nonempty line containing
`"Size"`; `""` on IndexError. -/
def size_extract (page : String) : String :=
  let lines := neLines page
  match lines.findIdx? (fun l => containsSub "Size".data l) with
  | none => ""
  | some i => match lines[i + 1]? with | none => "" | some l => ⟨l⟩

/-- Embedding of `color_extract`: the line after the first nonempty line containing
`"Color"`; `""` on IndexError. -/
def color_extract (page : String) : String :=
  let lines := neLines page
  match lines.findIdx? (fun l => containsSub "Color".data l) with
  | none => ""
  | some i => match lines[i + 1]? with | none => "" | some l => ⟨l⟩

/-- One iteration of the `extract_data` loop body.  The `error_pages`
append happens before the quantity unpacking, so it survives the
per-page `except`.  When `quantity_extract` returns the bare `0`, the
tuple unpacking `qty, mqty = ...` raises TypeError, the blanket
`except: None` swallows it, and no row is appended: the record part is
`none`. -/
def process_page (idx : ℕ) (page : String) : Option PageRecord × Bool :=
  let sku := sku_extract page
  let isErr := sku = .str ""
  match quantity_extract page with
  | .bare _ => (none, isErr)
  | .tup q m =>
    (some { page := idx, sku := sku.toColumn, qty := q, multi := m,
            courier := courier_extract page, soldBy := soldBy_extract page,
            size := size_extract page, color := color_extract page }, isErr)

/-- The `for idx, page in enumerate(text)` loop of `extract_data`,
started at index `i`: returns the appended dataframe rows and the
`error_pages` list. -/
def extractFrom (i : ℕ) : List String → List PageRecord × List ℕ
  | [] => ([], [])
  | t :: ts =>
    let p := process_page i t
    let rest := extractFrom (i + 1) ts
    (p.1.toList ++ rest.1, (if p.2 then [i] else []) ++ rest.2)

/-- The row and `error_pages` accumulation of `extract_data`'s
`enumerate` loop, before the error-pages file handling that follows
it. -/
def extract_rows (texts : List String) : List PageRecord × List ℕ := extractFrom 0 texts

def errorPages (texts : List String) : List ℕ := (extract_rows texts).2

/-- Embedding of `extract_data`, including its file access: after the
page loop, when `error_pages` is nonempty it opens the fixed relative
path `temp/output.pdf` (`PdfReader("temp/output.pdf")`) to build the
error-pages document.  The filesystem is modelled as the list of
`(directory, filename)` pairs that exist; a missing file makes the open
raise, and that exception propagates out of `extract_data` (`.error`),
aborting the caller. -/
def extract_data (texts : List String) (fs : List (String × String)) :
    Except Unit (List PageRecord × List ℕ) :=
  let r := extract_rows texts
  if r.2 ≠ [] ∧ ("temp", "output.pdf") ∉ fs then .error ()
  else .ok r

/-- The observable outputs of one Meshoo folder job. -/
structure RunOutputs where
  sortedPages : List ℕ
  errorPdfPages : Option (List ℕ)
  summary : Bool
  deriving DecidableEq, Repr

/-- Embedding of `main.process_folder`: merging writes `merged.pdf` inside the fresh
`TemporaryDirectory` (so that is the only file that exists when
`extract_data` runs), extraction errors are caught by the enclosing
`try`, producing no outputs (`none`); an empty dataframe returns early
with no outputs; otherwise the table is cleaned, sorted and the PDF,
summary and (hypothetically) error-pages outputs are produced. -/
def process_folder (tempDir : String) (cfg : SortConfig) (texts : List String) :
    Option RunOutputs :=
  match extract_data texts [(tempDir, "merged.pdf")] with
  | .error _ => none
  | .ok r =>
    if r.1 = [] then none
    else
      some { sortedPages := (sortTable cfg (r.1.map cleanRecord)).map PageRecord.page,
             errorPdfPages := if r.2 ≠ [] then some r.2 else none,
             summary := true }

/-! Embedding of `MeshooCropper/utils.pdf_cropper`.

The per-page `try` body of the cropper either completes (emitting
cropped pages according to the configuration) or raises somewhere in the
PyMuPDF geometry (anchor search, `new_page`): the `except` branch then
copies the entire original page into the result *at the current
position* (`result.insert_pdf(source_pdf, from_page=page_no,
to_page=page_no)`).  Pages are modelled as their index paired with a
flag saying whether the `try` body completes; `main.process_folder`
calls `pdf_cropper(whitespace_pdf, config)` without a dataframe, so
`page_order` is the identity and pages arrive in the reordered
document's order. -/

/-- Cropper options read from the configuration:
`"keep_invoice With 4x4"`, `"4x4"`, `"keep_invoice"`,
`"add_date_on_top"`. -/
structure MCropConfig where
  keepInvoiceWith4x4 : Bool
  fourByFour : Bool
  keepInvoice : Bool
  addDateOnTop : Bool
  deriving DecidableEq, Repr

inductive CropKind where
  | label
  | invoice
  | combined
  deriving DecidableEq, Repr

/-- A page of the cropper's output document: either a region cropped
from source page `src`, or the unmodified original page `src` copied by
the `except` fallback. -/
inductive OutPage where
  | cropped (src : ℕ) (k : CropKind)
  | original (src : ℕ)
  deriving DecidableEq, Repr

def OutPage.src : OutPage → ℕ
  | .cropped s _ => s
  | .original s => s

/-- Where the per-page `try` body stops for one page: `ok` when it runs
to completion, `failAfter k` when a PyMuPDF call raises after `k` output
pages have already been added to `result` (for example `failAfter 1` in
the `keep_invoice` branch when the label page succeeded but the invoice
`new_page` raised on a degenerate height).  `failAfter 0` is the common
case of the anchor search itself raising before anything is emitted. -/
inductive CropOutcome where
  | ok
  | failAfter (k : ℕ)
  deriving DecidableEq, Repr

/-- The output pages the `try` body adds for page `i` when it runs to
completion: the combined single-sheet mode stacks label and invoice on
one new page, `keep_invoice` emits the label page then the invoice
page, otherwise only the label page. -/
def crop_emits (cfg : MCropConfig) (i : ℕ) : List OutPage :=
  if cfg.keepInvoiceWith4x4 || cfg.fourByFour then [.cropped i .combined]
  else if cfg.keepInvoice then [.cropped i .label, .cropped i .invoice]
  else [.cropped i .label]

/-- The pages one input page contributes to `result`: its full emission
when the body completes, and for an exception after `k` emitted pages,
those `k` pages followed by the `except` handler's unmodified copy of
the original (`result.insert_pdf(source_pdf, from_page=page_no,
to_page=page_no)` at the current position). -/
def crop_page (cfg : MCropConfig) (p : ℕ × CropOutcome) : List OutPage :=
  match p.2 with
  | .ok => crop_emits cfg p.1
  | .failAfter k => (crop_emits cfg p.1).take k ++ [.original p.1]

/-- The page loop of `pdf_cropper` over the (identity-ordered) input pages. -/
def pdf_cropper (cfg : MCropConfig) (pages : List (ℕ × CropOutcome)) : List OutPage :=
  catMap (crop_page cfg) pages

/-- Length of the full per-page emission. -/
def emitsLen (cfg : MCropConfig) : ℕ :=
  if cfg.keepInvoiceWith4x4 || cfg.fourByFour then 1
  else if cfg.keepInvoice then 2
  else 1

/-- How many output pages one input page contributes. -/
def emitCount (cfg : MCropConfig) : CropOutcome → ℕ
  | .ok => emitsLen cfg
  | .failAfter k => min k (emitsLen cfg) + 1

end Meshoo

namespace Flipkart

/-! Embedding of `tools/FlipkartCropper/utils.py`. -/

/-- Computation `CLEAN_PATTERN.sub("", page).split("\n")`. -/
def pageLines (page : String) : List (List Char) := splitLinesCL (cleanCL page.data)

/-- The keyword scan in `quantity_extract`: collect stripped
all-digit lines after the `QTY` line, stopping at the first line whose
upper-casing contains `SKU`, `SOLD BY`, `COLOR` or `SIZE`. -/
def scanQtys : List (List Char) → List Int
  | [] => []
  | l :: ls =>
    let s := trimCL l
    if ["SKU", "SOLD BY", "COLOR", "SIZE"].any (fun k => containsSub k.data (upperCL s)) then []
    else if isDigitsCL s then (natOfDigits s : Int) :: scanQtys ls
    else scanQtys ls

/-- Embedding of `quantity_extract`: the first line whose upper-casing contains
`"QTY"` anchors the scan; `StopIteration` (no such line) returns
`(1, False)`; the quantity is the sum of the collected digit lines (or 1
if none), multi iff more than one digit line. -/
def quantity_extract (page : String) : Int × Bool :=
  let lines := pageLines page
  match lines.findIdx? (fun l => containsSub "QTY".data (upperCL l)) with
  | none => (1, false)
  | some i =>
    let qtys := scanQtys (lines.drop (i + 1))
    (if qtys = [] then 1 else qtys.foldl (· + ·) 0, decide (qtys.length > 1))

/-- Embedding of `sku_extract`: lines containing `"|"` whose first character is
numeric; the SKU is `skus[0].split(" ", 1)[1].split("|", 1)[0]`.  When
`skus[0]` contains no space, `sku[1]` raises IndexError *outside* the
function's `try`, so the exception escapes to `process_page`'s handler
(`none`). -/
def sku_extract (page : String) : Option (String × Bool) :=
  let lines := pageLines page
  let allPipe := lines.filter (fun l => containsSub "|".data l)
  let skus := allPipe.filter (fun l => match l with | [] => false | c :: _ => c.isDigit)
  match skus with
  | [] => some ("", false)
  | s0 :: _ =>
    match splitOnceCL ' ' s0 with
    | none => none
    | some (_, rest) => some (⟨rest.takeWhile (· ≠ '|')⟩, decide (skus.length > 1))

/-- Embedding of `courier_extract`: `page.split("\n")[2].strip()`, `""` on
IndexError. -/
def courier_extract (page : String) : String :=
  match (pageLines page)[2]? with
  | some l => ⟨trimCL l⟩
  | none => ""

/-- Embedding of `soldBy_extract`: the first line containing `"Sold By:"`, with the
marker removed, stripped, and cut at the first comma; `""` when
absent. -/
def soldBy_extract (page : String) : String :=
  match (pageLines page).find? (fun l => containsSub "Sold By:".data l) with
  | none => ""
  | some l => ⟨(trimCL (replaceAll "Sold By:".data [] l)).takeWhile (· ≠ ',')⟩

/-- The body of `extract_data`'s `process_page(idx, page)`: any escaped
exception yields `(None, idx)`; otherwise the row dict plus
`idx if sku == "" else None`. -/
def process_page (idx : ℕ) (page : String) : Option PageRecord × Option ℕ :=
  match sku_extract page with
  | none => (none, some idx)
  | some (sku, multiSku) =>
    let qm := quantity_extract page
    let multi := multiSku || qm.2 || decide (qm.1 > 1)
    (some { page := idx, sku := sku, qty := qm.1, multi := multi,
            courier := courier_extract page, soldBy := soldBy_extract page },
     if sku = "" then some idx else none)

/-- Embedding of `extract_data`: it submits one future per page to a thread pool and
appends each result to `df_list`/`error_pages` in `as_completed`
(completion) order.  `arrival` is that completion order: the rows enter
the table in the order the page indices appear in `arrival`, not in page
order. -/
def extract_data (texts : List String) (arrival : List ℕ) : List PageRecord × List ℕ :=
  arrival.foldl
    (fun acc j =>
      match texts[j]? with
      | none => acc
      | some t =>
        let p := process_page j t
        (acc.1 ++ p.1.toList, acc.2 ++ p.2.toList))
    ([], [])

/-- The `process_folder` pipeline from extraction to the reordered page
list: clean the columns, sort by the configured composite key, and read
off `df.page.values`. -/
def sortedPages (cfg : SortConfig) (texts : List String) (arrival : List ℕ) : List ℕ :=
  (sortTable cfg ((extract_data texts arrival).1.map cleanRecord)).map PageRecord.page

def errorPages (texts : List String) (arrival : List ℕ) : List ℕ :=
  (extract_data texts arrival).2

/-! Embedding of `check_input_file`. -/

/-- An entry of the input folder: its file name, whether `open` succeeds
on it, and its raw bytes. -/
structure InFile where
  name : String
  readable : Bool
  bytes : List ℕ
  deriving DecidableEq, Repr

/-- Bytes of `b"%PDF"`. -/
def pdfSig : List ℕ := [37, 80, 68, 70]

/-- Embedding of `check_input_file`: a file is collected iff its
(lower-cased) name ends with `".pdf"`, it can be opened, and its first
4 bytes equal `b"%PDF"`; every other file is skipped and the scan
continues (files failing the open or the signature test are skipped
with a printed message, names without a `.pdf` suffix silently). -/
def check_input_file (files : List InFile) : List InFile :=
  files.filter fun f =>
    endsCL ".pdf".data (lowerCL f.name.data) && f.readable
      && decide (f.bytes.take 4 = pdfSig)

/-! Embedding of the label rectangle derivation in `pdf_cropper`. -/

/-- A PyMuPDF rectangle (top-left origin, PDF points). -/
structure Rect where
  x0 : ℚ
  y0 : ℚ
  x1 : ℚ
  y1 : ℚ
  deriving DecidableEq, Repr

def Rect.w (r : Rect) : ℚ := r.x1 - r.x0

def Rect.h (r : Rect) : ℚ := r.y1 - r.y0

/-- The label rectangle derivation of `pdf_cropper` for one page of
width `W` and height `H`: the invoice top is `invoice_top_fixed_y` if
configured, else the located anchor `y0` (`_find_invoice_y`), else
`H * invoice_top_ratio`; it is clamped to `[30, H - 30]`; the label
spans from `(label_left, label_top)` to
`(W - label_left, max(label_top + 10, invoice_y_top - 12))`; if that
rectangle's height is ≤ 20 or width is ≤ 20 it is replaced by the
upper-half fallback `(label_left, label_top, W - label_left, H * 0.5)`. -/
def labelRect (W H labelLeft labelTop ratio : ℚ) (fixedY anchorY : Option ℚ) : Rect :=
  let invY0 : ℚ :=
    match fixedY with
    | some y => y
    | none => match anchorY with | some y => y | none => H * ratio
  let invY : ℚ := max 30 (min invY0 (H - 30))
  let labelBottom : ℚ := max (labelTop + 10) (invY - 12)
  let r : Rect := ⟨labelLeft, labelTop, W - labelLeft, labelBottom⟩
  if r.h ≤ 20 ∨ r.w ≤ 20 then ⟨labelLeft, labelTop, W - labelLeft, H * (1 / 2)⟩
  else r

end Flipkart

namespace JioMart

/-! Embedding of `JioMartCropper/utils.pdf_cropper`.

This variant renders each page to pixels, thresholds it with OpenCV and
crops to the detected content bounding box: per input page it either
creates exactly one new page showing the cropped content (when
`cv2.findNonZero` finds content) or inserts the unmodified original page
(when it does not).  The configuration is consulted only for
`add_date_on_top` (a text stamp); in particular `keep_invoice` — which
this tool's `read_config` defines — is never read, so no invoice page is
ever emitted. -/

/-- The configuration keys relevant to the JioMart cropper's behaviour:
`keep_invoice` (read by `read_config` but ignored by `pdf_cropper`) and
`add_date_on_top`. -/
structure JCropConfig where
  keepInvoice : Bool
  addDateOnTop : Bool
  deriving DecidableEq, Repr

/-- A page of the JioMart cropper's output: the content-cropped new page
for source page `src`, or the unmodified original. -/
inductive JOutPage where
  | content (src : ℕ)
  | original (src : ℕ)
  deriving DecidableEq, Repr

/-- One iteration of the page loop: pages are modelled as their index
paired with whether the pixel content detection found a bounding box.
Either branch contributes exactly one output page; the configuration
only controls the date stamp, not the page structure. -/
def crop_page (_cfg : JCropConfig) (p : ℕ × Bool) : List JOutPage :=
  if p.2 then [.content p.1] else [.original p.1]

/-- The page loop of the JioMart `pdf_cropper`. -/
def pdf_cropper (cfg : JCropConfig) (pages : List (ℕ × Bool)) : List JOutPage :=
  catMap (crop_page cfg) pages

end JioMart

/-! Concrete fixtures.

Page texts and configurations used to evaluate the embedded pipeline on
specific inputs.  Each fixture is named after the claim it serves. -/

/-- Configuration `sku_sort=true, courier_sort=false, soldBy_sort=false`. -/
def c1cfg : SortConfig := ⟨true, false, false⟩

/-- A Flipkart page text whose extraction fully succeeds
(SKU `ABC123`, quantity 2, courier line, seller line). -/
def c1page : String := "hdr\nx\nEkart\n1 ABC123|B\nQTY\n2\nSold By: Seller, Addr"

/-- A Meshoo page with an extractable SKU but no `Qty` marker anywhere. -/
def c2page : String := "SKU\nS1-RED\nfoo"

/-- A Meshoo page with an extractable SKU but no `Qty` marker (C3
counterexample). -/
def c3page : String := "SKU\nM-BLUE\nabc"

/-- A Meshoo page whose quantity extraction succeeds: `Qty` line, the
integer 2 on the next line, and a nonempty line after that. -/
def c3okPage : String := "SKU\nA\nQty\n2\nx"

/-- Sort configuration for the C3 witness. -/
def c3cfg : SortConfig := ⟨true, true, true⟩

/-- Configuration `sku_sort=true` for the concrete 3-page scenario. -/
def c4cfg : SortConfig := ⟨true, false, false⟩

/-- Scenario page 0: SKU `ABC123`, quantity 2 (multi-item). -/
def c4page0 : String := "hdr\nx\nEkart\n1 ABC123|B\nQTY\n2\nSold By: Seller, Addr"

/-- Scenario page 1: no pipe-delimited SKU line, so the extracted SKU is
the empty string (error page); quantity 1. -/
def c4page1 : String := "hdr\nx\nEkart\nno sku here\nQTY\n1\nSold By: Tother, Addr"

/-- Scenario page 2: SKU `ABC123`, quantity 1. -/
def c4page2 : String := "hdr\nx\nEkart\n1 ABC123|B\nQTY\n1\nSold By: Seller, Addr"

/-- The 3-page merged document of the concrete scenario. -/
def c4texts : List String := [c4page0, c4page1, c4page2]

/-- Label-only cropper configuration (no combined mode, no invoice). -/
def c6cfg : Meshoo.MCropConfig := ⟨false, false, false, false⟩

/-- Invoice-retaining cropper configuration (no combined mode). -/
def c7cfg : Meshoo.MCropConfig := ⟨false, false, true, false⟩

/-- Three cropper input pages, the middle one raising before emitting
anything. -/
def c7pages : List (ℕ × Meshoo.CropOutcome) := [(0, .ok), (1, .failAfter 0), (2, .ok)]

/-- A JioMart configuration requesting invoice retention. -/
def c7jcfg : JioMart.JCropConfig := ⟨true, false⟩

/-- A file whose bytes start with the PDF signature but whose name does
not end in `.pdf`. -/
def c9file : Flipkart.InFile := ⟨"report.txt", true, [37, 80, 68, 70, 45, 49]⟩

/-- A well-formed PDF file entry. -/
def c9pdf : Flipkart.InFile := ⟨"labels.PDF", true, [37, 80, 68, 70, 45, 49]⟩

/-- A Meshoo page whose extracted SKU is the empty string (the line
after `SKU` is blank), making it an error page. -/
def c10page : String := "SKU\n\nQty\n1\nx"

/-- Sort configuration for the C10 witness. -/
def c10cfg : SortConfig := ⟨true, false, false⟩

/-! Helper lemmas shared between the claim theorems. -/

theorem meshoo_process_page_ok (i : ℕ) (t : String)
    (h : (Meshoo.quantity_extract t).isTup = true) :
    ((Meshoo.process_page i t).1).toList.map PageRecord.page = [i] := by
  cases hq : Meshoo.quantity_extract t with
  | bare n => rw [hq] at h; exact absurd h (by simp [Meshoo.QtyRes.isTup])
  | tup q m => simp [Meshoo.process_page, hq]

theorem meshoo_extractFrom_pages (ts : List String) :
    ∀ i : ℕ, (∀ t ∈ ts, (Meshoo.quantity_extract t).isTup = true) →
      (Meshoo.extractFrom i ts).1.map PageRecord.page = List.range' i ts.length := by
  induction ts with
  | nil => intro i _; rfl
  | cons t ts ih =>
    intro i h
    have h1 := meshoo_process_page_ok i t (h t (by simp))
    have h2 := ih (i + 1) (fun u hu => h u (by simp [hu]))
    simp only [Meshoo.extractFrom, List.length_cons, List.range'_succ, List.map_append]
    rw [h1, h2]
    rfl

theorem filterMap_range_getElem (doc : List α) :
    (List.range doc.length).filterMap (fun i => doc[i]?) = doc := by
  induction doc with
  | nil => rfl
  | cons a doc ih =>
    rw [List.length_cons, List.range_succ_eq_map]
    simp only [List.filterMap_cons, List.getElem?_cons_zero, List.filterMap_map]
    simp only [Function.comp_def, List.getElem?_cons_succ]
    rw [ih]

theorem reorderDoc_perm_of_perm_range (doc : List α) (order : List ℕ)
    (h : order.Perm (List.range doc.length)) : (reorderDoc doc order).Perm doc := by
  have hp := h.filterMap (fun i => doc[i]?)
  rw [filterMap_range_getElem] at hp
  exact hp

theorem sortTable_pages_perm (cfg : SortConfig) (rows : List PageRecord) :
    ((sortTable cfg rows).map PageRecord.page).Perm (rows.map PageRecord.page) :=
  (List.perm_insertionSort _ rows).map PageRecord.page

theorem cleanRecord_pages (rows : List PageRecord) :
    (rows.map cleanRecord).map PageRecord.page = rows.map PageRecord.page := by
  rw [List.map_map]; rfl

theorem crop_emits_src_replicate (cfg : Meshoo.MCropConfig) (i : ℕ) :
    (Meshoo.crop_emits cfg i).map Meshoo.OutPage.src =
      List.replicate (Meshoo.emitsLen cfg) i := by
  rcases cfg with ⟨k4, f4, ki, ad⟩
  cases k4 <;> cases f4 <;> cases ki <;> rfl

theorem crop_page_src_replicate (cfg : Meshoo.MCropConfig) (p : ℕ × Meshoo.CropOutcome) :
    (Meshoo.crop_page cfg p).map Meshoo.OutPage.src =
      List.replicate (Meshoo.emitCount cfg p.2) p.1 := by
  rcases p with ⟨i, o⟩
  cases o with
  | ok => exact crop_emits_src_replicate cfg i
  | failAfter k =>
    simp only [Meshoo.crop_page, Meshoo.emitCount, List.map_append, List.map_take,
      crop_emits_src_replicate, List.take_replicate]
    rw [List.replicate_succ']
    rfl

theorem jio_crop_page_length (cfg : JioMart.JCropConfig) (p : ℕ × Bool) :
    (JioMart.crop_page cfg p).length = 1 := by
  rcases p with ⟨i, found⟩
  cases found <;> rfl

/-! Claim theorems. -/

/-- C1 (code_bug evidence).  In the Flipkart variant, `extract_data`
appends each page's record to the table in thread-completion
(`as_completed`) order, and the stable composite sort keeps tied rows in
table order.  For a folder of two pages with identical text, the sorted
page order is `[1, 0]` when page 1's future completes first and `[0, 1]`
when page 0's does: records with equal sort keys do *not* appear in the
relative order of their original `page_index` values, contradicting the
claim (and spec section 5, which requires reassembly in strict
page-index order). -/
theorem flipkart_sort_tie_follows_completion_order :
    Flipkart.sortedPages c1cfg [c1page, c1page] [1, 0] = [1, 0] ∧
    Flipkart.sortedPages c1cfg [c1page, c1page] [0, 1] = [0, 1] ∧
    ([1, 0] : List ℕ) ≠ [0, 1] :=
  ⟨by decide, by decide, by decide⟩

/-- C2 (code_bug evidence).  In the Meshoo variant, a page text with no
parsable quantity (here: no `Qty` marker at all) makes
`quantity_extract` return the bare integer `0` instead of a pair; the
tuple unpacking in `extract_data` then raises TypeError, the blanket
per-page `except` swallows it, and *no* record is produced for the page
— rather than a record with quantity 1 as the claim states.  (The
exception indeed never escapes the per-page boundary: the full
`extract_data` still returns, with an empty table, even on an empty
filesystem, since the page is not an error page.) -/
theorem meshoo_quantity_unparsable_drops_record :
    Meshoo.quantity_extract c2page = Meshoo.QtyRes.bare 0 ∧
    (Meshoo.process_page 0 c2page).1 = none ∧
    Meshoo.extract_rows [c2page] = ([], []) ∧
    Meshoo.extract_data [c2page] [] = Except.ok ([], []) :=
  ⟨by decide, by decide, by decide, by rfl⟩

/-- C3 counterexample.  A 1-page merged document whose page has no `Qty`
marker produces an *empty* record table: `page_index` values are not
`0..N-1` (the page is silently dropped via the bare-`0` quantity
return), so the table does not contain exactly one record per page. -/
theorem meshoo_page_index_dense_cex :
    (Meshoo.extract_rows [c3page]).1.map PageRecord.page = [] ∧
    ([] : List ℕ) ≠ List.range 1 :=
  ⟨by decide, by decide⟩

/-- C3 (amended).  If every page's quantity extraction succeeds (returns
a pair) and no page's extracted SKU is the empty string, then
`extract_data` performs no `temp/output.pdf` open and cannot abort
(whatever files exist — compare C10), the record table contains exactly
one record per page with `page_index` values exactly `0..N-1` in order,
and reordering the merged document by the sorted table's `page` column
yields a permutation of the original pages (contents are copied
untouched, only the order changes). -/
theorem meshoo_page_index_dense_and_reorder_perm (cfg : SortConfig) (texts : List String)
    (fs : List (String × String))
    (h : ∀ t ∈ texts, (Meshoo.quantity_extract t).isTup = true)
    (he : Meshoo.errorPages texts = []) :
    Meshoo.extract_data texts fs = Except.ok (Meshoo.extract_rows texts) ∧
    (Meshoo.extract_rows texts).1.map PageRecord.page = List.range texts.length ∧
    (reorderDoc texts
      ((sortTable cfg ((Meshoo.extract_rows texts).1.map cleanRecord)).map
        PageRecord.page)).Perm texts := by
  have hok : Meshoo.extract_data texts fs = Except.ok (Meshoo.extract_rows texts) := by
    unfold Meshoo.extract_data
    rw [if_neg]
    intro hcon
    exact absurd he hcon.1
  have hd : (Meshoo.extract_rows texts).1.map PageRecord.page = List.range texts.length := by
    rw [Meshoo.extract_rows, meshoo_extractFrom_pages texts 0 h, List.range_eq_range']
  have hp := sortTable_pages_perm cfg ((Meshoo.extract_rows texts).1.map cleanRecord)
  rw [cleanRecord_pages, hd] at hp
  exact ⟨hok, hd, reorderDoc_perm_of_perm_range _ _ hp⟩

/-- C3 witness: the dense-table/permutation theorem evaluated on a
concrete 1-page document whose quantity extraction succeeds and whose
SKU is nonempty, over an empty filesystem. -/
theorem meshoo_page_index_dense_and_reorder_perm_witness :
    Meshoo.extract_data [c3okPage] [] = Except.ok (Meshoo.extract_rows [c3okPage]) ∧
    (Meshoo.extract_rows [c3okPage]).1.map PageRecord.page = List.range 1 ∧
    (reorderDoc [c3okPage]
      ((sortTable c3cfg ((Meshoo.extract_rows [c3okPage]).1.map cleanRecord)).map
        PageRecord.page)).Perm [c3okPage] :=
  meshoo_page_index_dense_and_reorder_perm c3cfg [c3okPage] [] (by decide) (by decide)

/-- C4 counterexample.  On the concrete 3-page scenario with
`sku_sort=true` the code sorts `multi` *ascending* (`ascending_list`
starts `[True]`), so the multi-item page 0 is placed last, not first:
the sorted record order is `[2, 1, 0]` and its head is not page 0. -/
theorem flipkart_scenario_multi_first_cex :
    Flipkart.sortedPages c4cfg c4texts [0, 1, 2] = [2, 1, 0] ∧
    (Flipkart.sortedPages c4cfg c4texts [0, 1, 2]).head? ≠ some 0 :=
  ⟨by decide, by decide⟩

/-- C4 (amended).  For the concrete 3-page scenario and any thread
completion order, with `sku_sort=true` the sorted record order is
page 2, page 1, page 0 (non-multi pages first because `multi` sorts
ascending; within them SKU descending, so the empty-SKU page 1 follows
page 2), and the error-pages document contains exactly page 1. -/
theorem flipkart_scenario_sorted_order (arrival : List ℕ)
    (h : arrival.Perm [0, 1, 2]) :
    Flipkart.sortedPages c4cfg c4texts arrival = [2, 1, 0] ∧
    Flipkart.errorPages c4texts arrival = [1] := by
  have hl := h.length_eq
  rcases arrival with _ | ⟨a, _ | ⟨b, _ | ⟨c, _ | ⟨d, tl⟩⟩⟩⟩ <;> simp at hl
  have ha : a ∈ ([0, 1, 2] : List ℕ) := h.subset (by simp)
  have hb : b ∈ ([0, 1, 2] : List ℕ) := h.subset (by simp)
  have hc : c ∈ ([0, 1, 2] : List ℕ) := h.subset (by simp)
  fin_cases ha <;> fin_cases hb <;> fin_cases hc <;>
    first
      | exact absurd h (by decide)
      | exact ⟨by decide, by decide⟩

/-- C4 witness: the scenario theorem evaluated at the in-order
completion order. -/
theorem flipkart_scenario_sorted_order_witness :
    Flipkart.sortedPages c4cfg c4texts [0, 1, 2] = [2, 1, 0] ∧
    Flipkart.errorPages c4texts [0, 1, 2] = [1] :=
  flipkart_scenario_sorted_order [0, 1, 2] (by decide)

/-- C5 counterexample.  The normalization also maps `"lhs-r0"` — a token
distinct from `"c"`, `"lsh-r0"` and `""` — to the fallback carrier name,
so the mapped set is not exactly the three tokens of the claim. -/
theorem courier_normalize_extra_placeholder_cex :
    courierNormalize "lhs-r0" = "valmo" ∧
    ("lhs-r0" : String) ≠ "c" ∧ ("lhs-r0" : String) ≠ "lsh-r0" ∧
    ("lhs-r0" : String) ≠ "" :=
  ⟨by decide, by decide, by decide, by decide⟩

/-- C5 (amended).  The normalization returns the fallback carrier
`"valmo"` exactly for tokens whose stripped lower-cased form is `"c"`,
`"lsh-r0"`, `"lhs-r0"`, `""` — or `"valmo"` itself, which is returned
unchanged; every other token is returned stripped and lower-cased. -/
theorem courier_normalize_characterization (t : String) :
    (courierNormalize t = "valmo" ↔
      (lowerCL (trimCL t.data) = "c".data ∨ lowerCL (trimCL t.data) = "lsh-r0".data ∨
        lowerCL (trimCL t.data) = "lhs-r0".data ∨ lowerCL (trimCL t.data) = [] ∨
        lowerCL (trimCL t.data) = "valmo".data)) ∧
    (courierNormalize t = ⟨lowerCL (trimCL t.data)⟩ ↔
      ¬(lowerCL (trimCL t.data) = "c".data ∨ lowerCL (trimCL t.data) = "lsh-r0".data ∨
        lowerCL (trimCL t.data) = "lhs-r0".data ∨ lowerCL (trimCL t.data) = [])) := by
  unfold courierNormalize
  by_cases h : lowerCL (trimCL t.data) = "c".data ∨ lowerCL (trimCL t.data) = "lsh-r0".data ∨
      lowerCL (trimCL t.data) = "lhs-r0".data ∨ lowerCL (trimCL t.data) = []
  · rw [if_pos h]
    constructor
    · exact ⟨fun _ => by tauto, fun _ => rfl⟩
    · constructor
      · intro he
        exfalso
        rcases h with h | h | h | h <;> rw [h] at he <;> exact absurd he (by decide)
      · intro hne; exact absurd h hne
  · rw [if_neg h]
    constructor
    · constructor
      · intro he
        have hd : lowerCL (trimCL t.data) = "valmo".data := congrArg String.data he
        tauto
      · intro hd
        rcases hd with hd | hd | hd | hd | hd
        · exact absurd (Or.inl hd) h
        · exact absurd (Or.inr (Or.inl hd)) h
        · exact absurd (Or.inr (Or.inr (Or.inl hd))) h
        · exact absurd (Or.inr (Or.inr (Or.inr hd))) h
        · exact congrArg String.mk hd
    · simp [h]

/-- C5 witness: the characterization evaluated at a concrete
non-placeholder token with surrounding whitespace. -/
theorem courier_normalize_characterization_witness :
    (courierNormalize " DTDC " = "valmo" ↔
      (lowerCL (trimCL (" DTDC " : String).data) = "c".data ∨
        lowerCL (trimCL (" DTDC " : String).data) = "lsh-r0".data ∨
        lowerCL (trimCL (" DTDC " : String).data) = "lhs-r0".data ∨
        lowerCL (trimCL (" DTDC " : String).data) = [] ∨
        lowerCL (trimCL (" DTDC " : String).data) = "valmo".data)) ∧
    (courierNormalize " DTDC " = ⟨lowerCL (trimCL (" DTDC " : String).data)⟩ ↔
      ¬(lowerCL (trimCL (" DTDC " : String).data) = "c".data ∨
        lowerCL (trimCL (" DTDC " : String).data) = "lsh-r0".data ∨
        lowerCL (trimCL (" DTDC " : String).data) = "lhs-r0".data ∨
        lowerCL (trimCL (" DTDC " : String).data) = [])) :=
  courier_normalize_characterization " DTDC "

/-- C6 counterexample.  With a 2-page input whose first page raises
per-page, the cropper's output is the unmodified original page 0
followed by the cropped page 1: the fallback page sits at its processing
position, it is *not* appended after the successfully cropped pages. -/
theorem meshoo_crop_fallback_interleaved_cex :
    Meshoo.pdf_cropper c6cfg [(0, .failAfter 0), (1, .ok)] =
      [Meshoo.OutPage.original 0, Meshoo.OutPage.cropped 1 .label] ∧
    Meshoo.pdf_cropper c6cfg [(0, .failAfter 0), (1, .ok)] ≠
      [Meshoo.OutPage.cropped 1 .label, Meshoo.OutPage.original 0] :=
  ⟨by decide, by decide⟩

/-- C6 (amended).  On a per-page exception the cropper copies the entire
original page unmodified into the output *at that page's position in the
processing order* (the page index is only printed, never recorded): the
source indices of the output document are exactly the input pages in
order, each repeated once per emitted page — whether the page completed,
failed before emitting anything, or failed mid-emission — so fallback
pages are interleaved in place rather than appended at the end.  A page
that fails before emitting anything contributes exactly its unmodified
original. -/
theorem meshoo_crop_fallback_in_place (cfg : Meshoo.MCropConfig)
    (pages : List (ℕ × Meshoo.CropOutcome)) :
    (Meshoo.pdf_cropper cfg pages).map Meshoo.OutPage.src =
      catMap (fun p => List.replicate (Meshoo.emitCount cfg p.2) p.1) pages ∧
    ∀ i : ℕ, Meshoo.crop_page cfg (i, .failAfter 0) = [Meshoo.OutPage.original i] := by
  constructor
  · induction pages with
    | nil => rfl
    | cons p ps ih =>
      simp only [Meshoo.pdf_cropper, catMap, List.map_append] at ih ⊢
      rw [crop_page_src_replicate, ih]
  · intro i
    simp only [Meshoo.crop_page, List.take_zero, List.nil_append]

/-- C7 counterexample.  The claim also covers the JioMart cropper, but
that variant never reads `keep_invoice`: with a configuration requesting
invoice retention, a successfully processed page still yields exactly
one output page (the content-cropped page), not the claimed two
label-then-invoice pages. -/
theorem jiomart_keep_invoice_single_page_cex :
    JioMart.pdf_cropper c7jcfg [(0, true)] = [JioMart.JOutPage.content 0] ∧
    c7jcfg.keepInvoice = true ∧
    (JioMart.pdf_cropper c7jcfg [(0, true)]).length ≠ 2 :=
  ⟨by decide, by decide, by decide⟩

/-- C7 (amended).  In the Meshoo cropper, outside the combined
single-sheet mode, every input page whose per-page body runs to
completion emits exactly two output pages — label then invoice — when
`keep_invoice` holds, and exactly one label page otherwise; when every
page either completes or raises before emitting anything, the output
page count is the input page count plus one extra page per completed
page when invoices are retained (a page raising mid-emission keeps its
already-emitted pages ahead of the fallback copy and perturbs that
count).  The JioMart cropper ignores `keep_invoice` and always emits
exactly one output page per input page. -/
theorem meshoo_crop_page_count_invariant (cfg : Meshoo.MCropConfig)
    (pages : List (ℕ × Meshoo.CropOutcome))
    (hc : (cfg.keepInvoiceWith4x4 || cfg.fourByFour) = false)
    (hp : ∀ p ∈ pages, p.2 = Meshoo.CropOutcome.ok ∨ p.2 = Meshoo.CropOutcome.failAfter 0) :
    (Meshoo.pdf_cropper cfg pages).length =
      pages.length +
        (if cfg.keepInvoice then
          (pages.filter (fun p => p.2 = Meshoo.CropOutcome.ok)).length
        else 0) ∧
    (∀ i : ℕ, cfg.keepInvoice = true →
      Meshoo.crop_page cfg (i, .ok) =
        [Meshoo.OutPage.cropped i .label, Meshoo.OutPage.cropped i .invoice]) ∧
    (∀ i : ℕ, cfg.keepInvoice = false →
      Meshoo.crop_page cfg (i, .ok) = [Meshoo.OutPage.cropped i .label]) ∧
    (∀ (jcfg : JioMart.JCropConfig) (jpages : List (ℕ × Bool)),
      (JioMart.pdf_cropper jcfg jpages).length = jpages.length) := by
  rcases cfg with ⟨k4, f4, ki, ad⟩
  simp only [Bool.or_eq_false_iff] at hc
  obtain ⟨hk4, hf4⟩ := hc
  subst hk4 hf4
  refine ⟨?_, ?_, ?_, ?_⟩
  · revert hp
    induction pages with
    | nil => intro _; cases ki <;> rfl
    | cons p ps ih =>
      intro hp
      have hph := hp p (by simp)
      have ihh := ih (fun q hq => hp q (by simp [hq]))
      rcases p with ⟨i, o⟩
      rcases hph with h | h <;> simp only at h <;> subst h <;> cases ki <;>
        simp only [Meshoo.pdf_cropper, catMap, Meshoo.crop_page, Meshoo.crop_emits,
          List.take_zero, List.nil_append, List.length_append, List.filter_cons] at ihh ⊢ <;>
        simp_all <;> omega
  · intro i h; subst h; rfl
  · intro i h; subst h; rfl
  · intro jcfg jpages
    induction jpages with
    | nil => rfl
    | cons q qs ihq =>
      simp only [JioMart.pdf_cropper, catMap, List.length_append] at ihq ⊢
      rw [jio_crop_page_length, ihq, List.length_cons]
      omega

/-- C7 witness: the count invariant on a 3-page Meshoo run (pages 0 and
2 complete, page 1 raises before emitting) with invoices retained:
3 + 2 = 5 output pages. -/
theorem meshoo_crop_page_count_invariant_witness :
    (Meshoo.pdf_cropper c7cfg c7pages).length =
      c7pages.length +
        (if c7cfg.keepInvoice then
          (c7pages.filter (fun p => p.2 = Meshoo.CropOutcome.ok)).length
        else 0) ∧
    (∀ i : ℕ, c7cfg.keepInvoice = true →
      Meshoo.crop_page c7cfg (i, .ok) =
        [Meshoo.OutPage.cropped i .label, Meshoo.OutPage.cropped i .invoice]) ∧
    (∀ i : ℕ, c7cfg.keepInvoice = false →
      Meshoo.crop_page c7cfg (i, .ok) = [Meshoo.OutPage.cropped i .label]) ∧
    (∀ (jcfg : JioMart.JCropConfig) (jpages : List (ℕ × Bool)),
      (JioMart.pdf_cropper jcfg jpages).length = jpages.length) :=
  meshoo_crop_page_count_invariant c7cfg c7pages rfl (by decide)

/-- C8 counterexample.  On a 300 × 800 pt page with no located anchor and
the default margins (`label_left=185`, `label_top=15`) and ratio, the
derived label rectangle has width `300 - 2·185 = -70`: it is degenerate
(non-positive width), and the upper-half fallback keeps the same
horizontal extent, contradicting the claimed strictly positive width. -/
theorem flipkart_label_rect_degenerate_cex :
    (Flipkart.labelRect 300 800 185 15 (29 / 50) none none).w = -70 ∧
    ¬(0 < (Flipkart.labelRect 300 800 185 15 (29 / 50) none none).w) := by
  constructor
  · norm_num [Flipkart.labelRect, Flipkart.Rect.w, Flipkart.Rect.h]
  · norm_num [Flipkart.labelRect, Flipkart.Rect.w, Flipkart.Rect.h]

/-- C8 (amended).  For any anchor-less page wider than `2·label_left`
(370 pt with the defaults) and taller than `2·label_top` (30 pt), the
fallback-ratio derivation — whatever the configured ratio — yields a
label rectangle of strictly positive width and height (via the primary
rectangle or the upper-half fallback); narrower pages yield a
non-positive width and fall through to the unmodified-copy path. -/
theorem flipkart_label_rect_fallback_nondegenerate (W H ratio : ℚ)
    (hW : 370 < W) (hH : 30 < H) :
    0 < (Flipkart.labelRect W H 185 15 ratio none none).w ∧
    0 < (Flipkart.labelRect W H 185 15 ratio none none).h := by
  simp only [Flipkart.labelRect]
  split_ifs with h1
  · constructor
    · simp only [Flipkart.Rect.w]; linarith
    · simp only [Flipkart.Rect.h]; linarith
  · push_neg at h1
    constructor
    · simp only [Flipkart.Rect.w]; linarith
    · simp only [Flipkart.Rect.h] at h1 ⊢; linarith [h1.1]

/-- C8 witness: an A4 page (595 × 842 pt) with the default ratio has a
non-degenerate fallback label rectangle. -/
theorem flipkart_label_rect_fallback_nondegenerate_witness :
    0 < (Flipkart.labelRect 595 842 185 15 (29 / 50) none none).w ∧
    0 < (Flipkart.labelRect 595 842 185 15 (29 / 50) none none).h :=
  flipkart_label_rect_fallback_nondegenerate 595 842 (29 / 50) (by norm_num) (by norm_num)

/-- C9 counterexample.  A readable file whose first 4 bytes are exactly
the PDF signature but whose name ends in `.txt` is *not* accepted:
acceptance is not equivalent to the signature check alone. -/
theorem flipkart_check_input_file_extension_cex :
    Flipkart.check_input_file [c9file] = [] ∧
    c9file.bytes.take 4 = Flipkart.pdfSig ∧
    Flipkart.check_input_file [c9pdf] = [c9pdf] :=
  ⟨by decide, by decide, by decide⟩

/-- C9 (amended).  In the Flipkart variant a folder entry is accepted
iff its lower-cased name ends with `.pdf`, it can be opened, and its
first 4 bytes equal the PDF signature; every other entry is skipped and
the scan continues (the accepted list is exactly the filter of the
folder listing, so an invalid file is never fatal). -/
theorem flipkart_check_input_file_characterization (files : List Flipkart.InFile)
    (f : Flipkart.InFile) :
    f ∈ Flipkart.check_input_file files ↔
      f ∈ files ∧ endsCL ".pdf".data (lowerCL f.name.data) = true ∧
        f.readable = true ∧ f.bytes.take 4 = Flipkart.pdfSig := by
  unfold Flipkart.check_input_file
  rw [List.mem_filter]
  simp [Bool.and_eq_true, and_assoc]

/-- C10 (confirmed).  Whenever at least one page's extracted SKU is the
empty string, Meshoo's `extract_data` opens the fixed relative path
`temp/output.pdf`; the folder pipeline only ever creates `merged.pdf`
inside its `TemporaryDirectory`, so the open raises, the exception
escapes `extract_data` into `process_folder`'s catch-all, and the folder
job produces no outputs at all (no cropped PDF, no summary, no
error-pages PDF). -/
theorem meshoo_error_pages_abort_folder (tempDir : String) (cfg : SortConfig)
    (texts : List String) (h : Meshoo.errorPages texts ≠ []) :
    Meshoo.process_folder tempDir cfg texts = none := by
  unfold Meshoo.process_folder Meshoo.extract_data
  rw [if_pos]
  constructor
  · exact h
  · intro hmem
    simp only [List.mem_singleton, Prod.mk.injEq] at hmem
    exact absurd hmem.2 (by decide)

/-- C10 witness: a concrete folder with one blank-SKU page aborts with
no outputs, for an arbitrary concrete temporary directory name. -/
theorem meshoo_error_pages_abort_folder_witness :
    Meshoo.process_folder "tmp_a1b2" c10cfg [c10page] = none :=
  meshoo_error_pages_abort_folder "tmp_a1b2" c10cfg [c10page] (by decide)

end PdfTools
